import Mathlib

/-!
A verification development for the `autocert` certificate lifecycle manager
(Go sources: `internal/cert/manager.go`, `internal/acme/client.go`, and the
`cmd` package files `install.go` / `manage.go`).

The Go code is shallowly embedded:
  * machine integers and `time.Duration` values are modelled as `Int`
    nanosecond counts (exact arithmetic; the Go code routes the duration
    through `float64` in `Hours()`, which is exact for the magnitudes at hand
    and is abstracted to exact rational arithmetic here);
  * a single `now : Int` parameter stands for the wall clock during one
    lifecycle operation (the Go code calls `time.Now()` several times within
    microseconds of each other);
  * filesystem and network effects are recorded as an explicit event trace in
    a state `St`, and every fallible external call (file creation, RSA key
    generation, the lego/ACME library, the web-server configurator) draws its
    success/failure from an `Oracle` of booleans, so that one Lean run
    corresponds to one concrete execution of the Go code;
  * RSA/ECDSA key pairs are identified by the order in which they are drawn
    from the entropy source (`keyCtr` in `St`): two keys generated by distinct
    `rsa.GenerateKey` calls are distinct key pairs;
  * Go `error` values are collapsed to an enumeration `Err` naming the
    `fmt.Errorf` site that produced them.
-/

namespace AutoCert

/-- Challenge type enum of `internal/cert/manager.go` (webroot = 0, the zero
value and default). -/
inductive ChallengeType
  | webroot
  | standalone
  | dns
deriving DecidableEq, Repr

/-- Web-server type enum of `internal/cert/manager.go` (nginx = 0, the zero
value). -/
inductive WebServerType
  | nginx
  | apache
  | iis
deriving DecidableEq, Repr

/-- Error sites; each constructor names one `fmt.Errorf`/`errors` site in the
Go sources. -/
inductive Err
  | wildcardRequiresDNS   -- manager.go:197 "泛域名证书必须使用 DNS 验证模式"
  | mkdirFailed           -- manager.go:202 createCertDir failure
  | keyGenFailed          -- rsa.GenerateKey failure inside generatePrivateKey
  | keyWriteFailed        -- os.Create / pem.Encode failure for key.pem
  | keyChmodFailed        -- os.Chmod(keyPath, 0600) failure
  | csrFailed             -- x509.CreateCertificateRequest failure
  | wildcardUnsupported   -- manager.go:395/406 wildcard under HTTP/TLS-ALPN
  | selfSignFailed        -- rsa.GenerateKey/CreateCertificate in fallback
  | saveRemoteFailed      -- client.SaveCertificate failure (manager.go:471)
  | certWriteFailed       -- saveCertificate os.Create/pem.Encode failure
  | configureFailed       -- configurator.Configure failure
  | testFailed            -- manager.go:579 "配置测试失败"
  | reloadFailed          -- manager.go:584 "重载配置失败"
  | certNotFound          -- manager.go:266 "证书文件不存在"
  | certReadFailed        -- os.ReadFile failure in GetCertInfo
  | emptyDomain           -- install.go "域名不能为空"
  | invalidWildcard       -- install.go "泛域名格式无效"
  | multiWildcard         -- install.go "泛域名只能有一个通配符在开头"
  | containsSpace         -- install.go "域名不能包含空格"
  | noDomainFlag          -- install.go "必须指定 --domain 或 --domains 参数"
  | noWebServer           -- install.go "必须指定至少一种 Web 服务器类型"
  | multiWebServer        -- install.go "只能指定一种 Web 服务器类型"
  | conflictingIntent     -- install.go "只能指定一种验证模式"
  | managerNil            -- install.go "创建证书管理器失败"
  | emptyEmail            -- client.go "email 不能为空"
  | loadUserFailed        -- loadOrCreateUser / loadUser failure
  | legoClientFailed      -- lego.NewClient failure
  | registrationFailed    -- Registration.Register failure
deriving DecidableEq, Repr

/-- An X.509 certificate as far as the manager inspects one: subject common
name, subject-alternative names, validity window (nanosecond timestamps), the
key pair whose public key it certifies, and whether it is self-signed. -/
structure Certificate where
  subjectCN : String
  dnsNames : List String
  notBefore : Int
  notAfter : Int
  keyId : Nat
  selfSigned : Bool
deriving DecidableEq, Repr

/-- A certificate signing request (`x509.CertificateRequest`): common name,
SAN list, and the key pair that signs it. -/
structure CSR where
  commonName : String
  dnsNames : List String
  keyId : Nat
deriving DecidableEq, Repr

/-- Observable filesystem / network events, in program order.  Events are
recorded only for mutations that actually happened (a failed `os.MkdirAll`
that created nothing records no event). -/
inductive Event
  | mkdirCertDir (path : String)                         -- os.MkdirAll in createCertDir
  | keyWrite (path : String) (keyId : Nat) (mode : Nat)  -- key.pem written; mode is the final permission
  | remoteNewClient                                      -- acme.NewClient (lego directory fetch + registration)
  | remoteSetChallenge                                   -- SetHTTP01Provider / SetTLSALPN01Provider
  | remoteObtain                                         -- client.Certificate.Obtain
  | remoteSaveFiles (dir : String)                       -- client.SaveCertificate writes into certDir
  | certWrite (path : String) (cert : Certificate)       -- saveCertificate writes cert.pem
  | domainsWrite (path : String)                         -- domains.txt written
  | wsConfigure
  | wsTest
  | wsReload
deriving DecidableEq, Repr

/-- The `Manager` struct of `internal/cert/manager.go`.  `configurator` is
`true` when `SetWebServer` successfully bound a web-server configurator
(`m.configurator != nil`). -/
structure Manager where
  domains : List String
  primaryDomain : String
  email : String
  challengeType : ChallengeType
  webrootPath : String
  webServerType : WebServerType
  certDir : String
  keySize : Nat
  configurator : Bool
deriving DecidableEq, Repr

/-- Success/failure outcomes of every fallible external call made during one
`Install`/`Renew` run, fixed up front: one `Oracle` value corresponds to one
concrete behaviour of the outside world. -/
structure Oracle where
  mkdirOk : Bool          -- os.MkdirAll(certDir)
  keyGenOk : Bool         -- rsa.GenerateKey in generatePrivateKey
  keyCreateOk : Bool      -- os.Create + pem.Encode for key.pem
  keyChmodOk : Bool       -- os.Chmod(keyPath, 0600)
  csrOk : Bool            -- x509.CreateCertificateRequest
  newClientOk : Bool      -- acme.NewClient
  setChallengeOk : Bool   -- SetHTTPChallenge / SetTLSChallenge
  obtainOk : Bool         -- client.ObtainCertificate
  selfSignOk : Bool       -- rsa.GenerateKey + x509.CreateCertificate in fallback
  saveRemoteOk : Bool     -- client.SaveCertificate
  certWriteOk : Bool      -- os.Create + pem.Encode for cert.pem
  domainsWriteOk : Bool   -- os.WriteFile for domains.txt
  configureOk : Bool      -- configurator.Configure
  testOk : Bool           -- configurator.Test
  reloadOk : Bool         -- configurator.Reload
  issuedNotAfter : Int    -- NotAfter chosen by the authority on remote success
deriving DecidableEq, Repr

/-- Mutable world state threaded through a run: the event trace so far and
the entropy counter handing out fresh key-pair identities. -/
structure St where
  events : List Event
  keyCtr : Nat
deriving DecidableEq, Repr

/-- Path join, `filepath.Join` restricted to the two-component uses in the
sources. -/
def joinPath (a b : String) : String := a ++ "/" ++ b

/-- Go `strings.HasPrefix(s, p)`, computed over the character sequence. -/
def stringsHasPrefix (s p : String) : Bool :=
  p.data.isPrefixOf s.data

/-- Go `strings.Contains(s, needle)` for the single-character needles used in
the sources (a one-character substring occurs iff the character occurs). -/
def stringsContainsChar (s : String) (c : Char) : Bool :=
  s.data.contains c

/-- Helper for `stringsSplitComma`: accumulate the current field until a
comma. -/
def splitCommaAux : List Char → List Char → List (List Char)
  | [], acc => [acc.reverse]
  | c :: rest, acc =>
    if c = ',' then acc.reverse :: splitCommaAux rest []
    else splitCommaAux rest (c :: acc)

/-- Go `strings.Split(s, ",")`. -/
def stringsSplitComma (s : String) : List String :=
  (splitCommaAux s.data []).map String.mk

/-- Go `strings.TrimSpace` (whitespace per `Char.isWhitespace`, which agrees
with `unicode.IsSpace` on the ASCII whitespace appearing in domain input). -/
def stringsTrimSpace (s : String) : String :=
  ⟨((s.data.dropWhile Char.isWhitespace).reverse.dropWhile Char.isWhitespace).reverse⟩

/-- Nanoseconds per day; `24 * time.Hour` as a `time.Duration`. -/
def nsPerDay : Int := 86400000000000

/-- Validity window of the self-signed fallback certificate:
`90 * 24 * time.Hour` (manager.go:504). -/
def days90ns : Int := 90 * nsPerDay

/-- Wildcard scan shared by `Manager.HasWildcard` (manager.go:179) and the
loop in `validateInstallFlags` (install.go): any entry starting with star-dot. -/
def hasWildcardList (domains : List String) : Bool :=
  domains.any (fun d => stringsHasPrefix d "*.")

/-- Method `HasWildcard` of `Manager` (manager.go:179). -/
def Manager.HasWildcard (m : Manager) : Bool :=
  hasWildcardList m.domains

/-- Method `getDirName` (manager.go:303): multi-domain directories are keyed
by primary plus a san suffix. -/
def Manager.getDirName (m : Manager) : String :=
  if m.domains.length > 1 then m.primaryDomain ++ "_san" else m.primaryDomain

/-- The per-domain-set certificate directory `filepath.Join(m.certDir, m.getDirName())`. -/
def Manager.certDirPath (m : Manager) : String :=
  joinPath m.certDir m.getDirName

/-- Method `getCertPath` (manager.go:592). -/
def Manager.getCertPath (m : Manager) : String :=
  joinPath m.certDirPath "cert.pem"

/-- Method `getKeyPath` (manager.go:596). -/
def Manager.getKeyPath (m : Manager) : String :=
  joinPath m.certDirPath "key.pem"

/-- Method `getChainPath` (manager.go:600). -/
def Manager.getChainPath (m : Manager) : String :=
  joinPath m.certDirPath "chain.pem"

/-- Append one event to the trace. -/
def St.addEvent (s : St) (e : Event) : St :=
  { s with events := s.events ++ [e] }

/-- Method `createCertDir` (manager.go:311): `os.MkdirAll` of the per-set
directory.  On failure nothing was created, so no event is recorded. -/
def createCertDir (m : Manager) (o : Oracle) (s : St) : Except Err Unit × St :=
  if o.mkdirOk then
    (.ok (), s.addEvent (.mkdirCertDir m.certDirPath))
  else
    (.error .mkdirFailed, s)

/-- An RSA key pair, identified by the entropy draw that produced it. -/
structure RSAKey where
  keyId : Nat
deriving DecidableEq, Repr

/-- Method `generatePrivateKey` (manager.go:317): generate RSA key, write
`key.pem` via `os.Create` + `pem.Encode` (default permissions), then
`os.Chmod(keyPath, 0600)`.  The single `keyWrite` event carries the final
permission of the file as left by the function. -/
def generatePrivateKey (m : Manager) (o : Oracle) (s : St) : Except Err RSAKey × St :=
  if o.keyGenOk then
    let privateKey : RSAKey := ⟨s.keyCtr⟩
    if o.keyCreateOk then
      if o.keyChmodOk then
        (.ok privateKey,
          ⟨s.events ++ [.keyWrite m.getKeyPath privateKey.keyId 600], s.keyCtr + 1⟩)
      else
        -- chmod failed: file exists with the os.Create default mode 0666
        (.error .keyChmodFailed,
          ⟨s.events ++ [.keyWrite m.getKeyPath privateKey.keyId 666], s.keyCtr + 1⟩)
    else
      (.error .keyWriteFailed, ⟨s.events, s.keyCtr + 1⟩)
  else
    (.error .keyGenFailed, s)

/-- Method `createCSR` (manager.go:353): CommonName = primary domain, all
domains as SANs, signed by the given key.  Pure apart from entropy. -/
def createCSR (m : Manager) (o : Oracle) (privateKey : RSAKey) : Except Err CSR :=
  if o.csrOk then
    .ok { commonName := m.primaryDomain, dnsNames := m.domains, keyId := privateKey.keyId }
  else
    .error .csrFailed

/-- Method `generateSelfSignedCert` (manager.go:479): subject and SANs come
from the CSR when one is passed, otherwise from the manager's own fields; a
fresh RSA-2048 key pair is generated (`rsa.GenerateKey`, manager.go:509) and
the certificate is self-signed with a 90-day validity window.  Both
`time.Now()` calls are modelled as the single instant `now`.  Nothing is
written to disk here. -/
def generateSelfSignedCert (m : Manager) (o : Oracle) (csr : Option CSR) (now : Int)
    (s : St) : Except Err Certificate × St :=
  let subjectCN := match csr with
    | some c => c.commonName
    | none => m.primaryDomain
  let dnsNames := match csr with
    | some c => c.dnsNames
    | none => m.domains
  if o.selfSignOk then
    (.ok { subjectCN := subjectCN, dnsNames := dnsNames, notBefore := now,
           notAfter := now + days90ns, keyId := s.keyCtr, selfSigned := true },
      ⟨s.events, s.keyCtr + 1⟩)
  else
    (.error .selfSignFailed, s)

/-- The ACME challenge type of `internal/acme/client.go` passed into
`obtainWithACME`. -/
inductive AcmeChallengeType
  | http01
  | tlsalpn01
  | dns01
deriving DecidableEq, Repr

/-- Tail of `obtainWithACME` after the challenge switch (manager.go:461-475):
`client.ObtainCertificate(m.domains)` — on failure, fall back to a
self-signed certificate; on success, `client.SaveCertificate` writes the
issued files into the per-set directory, and a failure *there* is a hard
error.  The lego library generates its own key pair for the issued
certificate, hence the fresh `keyCtr` draw. -/
def acmeObtainAndSave (m : Manager) (o : Oracle) (now : Int) (s : St) :
    Except Err Certificate × St :=
  let s3 := s.addEvent .remoteObtain
  if o.obtainOk = false then
    generateSelfSignedCert m o none now s3
  else
    let cert : Certificate :=
      { subjectCN := m.primaryDomain, dnsNames := m.domains, notBefore := now,
        notAfter := o.issuedNotAfter, keyId := s3.keyCtr, selfSigned := false }
    let s4 : St := ⟨s3.events, s3.keyCtr + 1⟩
    if o.saveRemoteOk then
      (.ok cert, s4.addEvent (.remoteSaveFiles m.certDirPath))
    else
      (.error .saveRemoteFailed, s4)

/-- Method `obtainWithACME` (manager.go:434): create the ACME client (a
remote interaction: lego fetches the directory and registers the account),
set the challenge responder, then obtain.  Failure of client creation or of
challenge setup falls back to self-signed synthesis with a `nil` CSR. -/
def obtainWithACME (m : Manager) (o : Oracle) (challengeType : AcmeChallengeType)
    (now : Int) (s : St) : Except Err Certificate × St :=
  let s1 := s.addEvent .remoteNewClient
  if o.newClientOk = false then
    generateSelfSignedCert m o none now s1
  else
    match challengeType with
    | .http01 =>
      let s2 := s1.addEvent .remoteSetChallenge
      if o.setChallengeOk = false then
        generateSelfSignedCert m o none now s2
      else
        acmeObtainAndSave m o now s2
    | .tlsalpn01 =>
      let s2 := s1.addEvent .remoteSetChallenge
      if o.setChallengeOk = false then
        generateSelfSignedCert m o none now s2
      else
        acmeObtainAndSave m o now s2
    | .dns01 =>
      -- no case in the Go switch: no responder is set
      acmeObtainAndSave m o now s1

/-- Method `obtainCertificateWebroot` (manager.go:391): redundant wildcard
rejection, then HTTP-01 via `obtainWithACME`.  The CSR parameter is unused by
the Go code. -/
def obtainCertificateWebroot (m : Manager) (o : Oracle) (csr : CSR) (now : Int)
    (s : St) : Except Err Certificate × St :=
  if m.HasWildcard then
    (.error .wildcardUnsupported, s)
  else
    obtainWithACME m o .http01 now s

/-- Method `obtainCertificateStandalone` (manager.go:402): redundant wildcard
rejection, then TLS-ALPN-01 via `obtainWithACME`. -/
def obtainCertificateStandalone (m : Manager) (o : Oracle) (csr : CSR) (now : Int)
    (s : St) : Except Err Certificate × St :=
  if m.HasWildcard then
    (.error .wildcardUnsupported, s)
  else
    obtainWithACME m o .tlsalpn01 now s

/-- Method `obtainCertificateDNS` (manager.go:413): logs the required
`_acme-challenge` record names (observable output only — no mutation), then,
the DNS provider integration being unimplemented, synthesizes a self-signed
certificate from the CSR. -/
def obtainCertificateDNS (m : Manager) (o : Oracle) (csr : CSR) (now : Int)
    (s : St) : Except Err Certificate × St :=
  generateSelfSignedCert m o (some csr) now s

/-- Method `obtainCertificate` (manager.go:373): dispatch on the challenge
type.  The Go `default` branch is unreachable for the three enum values. -/
def obtainCertificate (m : Manager) (o : Oracle) (csr : CSR) (now : Int)
    (s : St) : Except Err Certificate × St :=
  match m.challengeType with
  | .webroot => obtainCertificateWebroot m o csr now s
  | .standalone => obtainCertificateStandalone m o csr now s
  | .dns => obtainCertificateDNS m o csr now s

/-- Method `saveCertificate` (manager.go:523): write `cert.pem`; for
multi-domain sets additionally write `domains.txt`, whose failure is only
logged (`logger.Warn`), never propagated. -/
def saveCertificate (m : Manager) (o : Oracle) (certBytes : Certificate)
    (s : St) : Except Err Unit × St :=
  if o.certWriteOk = false then
    (.error .certWriteFailed, s)
  else
    let s1 := s.addEvent (.certWrite m.getCertPath certBytes)
    if m.domains.length > 1 then
      if o.domainsWriteOk then
        (.ok (), s1.addEvent (.domainsWrite (joinPath m.certDirPath "domains.txt")))
      else
        (.ok (), s1)
    else
      (.ok (), s1)

/-- Method `configureWebServer` (manager.go:556): with no configurator bound,
warn and skip; otherwise Configure, then Test, then Reload, stopping at the
first failure, which is returned to the caller. -/
def configureWebServer (m : Manager) (o : Oracle) (s : St) : Except Err Unit × St :=
  if m.configurator = false then
    (.ok (), s)
  else
    let s1 := s.addEvent .wsConfigure
    if o.configureOk = false then
      (.error .configureFailed, s1)
    else
      let s2 := s1.addEvent .wsTest
      if o.testOk = false then
        (.error .testFailed, s2)
      else
        let s3 := s2.addEvent .wsReload
        if o.reloadOk = false then
          (.error .reloadFailed, s3)
        else
          (.ok (), s3)

/-- Method `Install` (manager.go:189): wildcard/DNS guard, then create the
directory, generate and persist the private key, build the CSR, obtain the
certificate (with fallback inside), save it, and configure the web server.
Every failure is wrapped with its step name (collapsed into `Err` here) and
returned. -/
def install (m : Manager) (o : Oracle) (now : Int) (s : St) : Except Err Unit × St :=
  if m.HasWildcard = true ∧ m.challengeType ≠ .dns then
    (.error .wildcardRequiresDNS, s)
  else
    match createCertDir m o s with
    | (.error e, s1) => (.error e, s1)
    | (.ok _, s1) =>
      match generatePrivateKey m o s1 with
      | (.error e, s2) => (.error e, s2)
      | (.ok privateKey, s2) =>
        match createCSR m o privateKey with
        | .error e => (.error e, s2)
        | .ok csr =>
          match obtainCertificate m o csr now s2 with
          | (.error e, s3) => (.error e, s3)
          | (.ok certBytes, s3) =>
            match saveCertificate m o certBytes s3 with
            | (.error e, s4) => (.error e, s4)
            | (.ok _, s4) => configureWebServer m o s4

/-- The `CertInfo` struct of `internal/cert/manager.go`. -/
structure CertInfo where
  domain : String
  domains : List String
  certPath : String
  keyPath : String
  chainPath : String
  expiryDate : Int
  isValid : Bool
  daysLeft : Int
deriving DecidableEq, Repr

/-- Method `GetCertInfo` (manager.go:261).  `diskCert` is the content of the
certificate file at the derived path: `none` when no file exists
(`os.IsNotExist`), `some none` when the file cannot be read or parsed,
`some (some cert)` for a parseable certificate.  Go computes
`DaysLeft = int(time.Until(cert.NotAfter).Hours() / 24)`: the duration in
nanoseconds divided by a day's nanoseconds, truncated toward zero, which is
exactly `Int.div` on the exact values. -/
def getCertInfo (m : Manager) (diskCert : Option (Option Certificate)) (now : Int) :
    Except Err CertInfo :=
  match diskCert with
  | none => .error .certNotFound
  | some none => .error .certReadFailed
  | some (some cert) =>
    let daysLeft : Int := Int.tdiv (cert.notAfter - now) nsPerDay
    .ok { domain := m.primaryDomain, domains := cert.dnsNames,
          certPath := m.getCertPath, keyPath := m.getKeyPath,
          chainPath := m.getChainPath, expiryDate := cert.notAfter,
          isValid := decide (now < cert.notAfter), daysLeft := daysLeft }

/-- Method `Renew` (manager.go:238): read the certificate's status; with more
than 30 days left, return success with no further effect; otherwise run the
full `Install`. -/
def renew (m : Manager) (o : Oracle) (diskCert : Option (Option Certificate))
    (now : Int) (s : St) : Except Err Unit × St :=
  match getCertInfo m diskCert now with
  | .error e => (.error e, s)
  | .ok certInfo =>
    if certInfo.daysLeft > 30 then
      (.ok (), s)
    else
      install m o now s

/-! The `cmd` package: flag validation and the install entry point
(`install.go`). -/

/-- The package-level flag variables of `cmd/install.go` gathered into one
record; one value is one invocation's flag state. -/
structure InstallFlags where
  domain : String
  domains : String
  email : String
  webroot : String
  standalone : Bool
  dnsChallenge : Bool
  nginx : Bool
  apache : Bool
  iis : Bool
deriving DecidableEq, Repr

/-- Function `validateDomainName` of `cmd/install.go`: empty check; for
entries with the wildcard prefix, a minimum total length of 4 and no further
star in the remainder; finally a check for the space character.  (Lengths are
character counts; the domain inputs of interest are ASCII, where Go's byte
length agrees.) -/
def validateDomainName (domain : String) : Except Err Unit :=
  if domain.length = 0 then .error .emptyDomain
  else if stringsHasPrefix domain "*." ∧ domain.length < 4 then .error .invalidWildcard
  else if stringsHasPrefix domain "*." ∧ stringsContainsChar (domain.drop 2) '*' then
    .error .multiWildcard
  else if stringsContainsChar domain ' ' then .error .containsSpace
  else .ok ()

/-- The per-entry loop body of `parseDomains` (install.go:150-157): reject an
empty entry, then `validateDomainName`, stopping at the first error. -/
def checkDomainList : List String → Except Err Unit
  | [] => .ok ()
  | d :: rest =>
    if d = "" then .error .emptyDomain
    else
      match validateDomainName d with
      | .error e => .error e
      | .ok _ => checkDomainList rest

/-- Function `parseDomains` of `cmd/install.go`: prefer the comma-separated
`--domains` flag, else the single `--domain` flag, trimming each entry, then
validate every entry. -/
def parseDomains (f : InstallFlags) : Except Err (List String) :=
  let domainListE : Except Err (List String) :=
    if f.domains ≠ "" then
      .ok ((stringsSplitComma f.domains).map stringsTrimSpace)
    else if f.domain ≠ "" then
      .ok [stringsTrimSpace f.domain]
    else
      .error .noDomainFlag
  match domainListE with
  | .error e => .error e
  | .ok domainList =>
    match checkDomainList domainList with
    | .error e => .error e
    | .ok _ => .ok domainList

/-- The web-server flag counter of `validateInstallFlags`. -/
def webServerCount (f : InstallFlags) : Nat :=
  (if f.nginx then 1 else 0) + (if f.apache then 1 else 0) + (if f.iis then 1 else 0)

/-- The explicit challenge-intent counter of `validateInstallFlags`
(install.go:224-233): standalone flag, non-empty webroot path, dns flag. -/
def challengeCount (f : InstallFlags) : Nat :=
  (if f.standalone then 1 else 0) + (if f.webroot ≠ "" then 1 else 0)
    + (if f.dnsChallenge then 1 else 0)

/-- Function `validateInstallFlags` of `cmd/install.go` (lines 189-240), with
its checks in source order: at least one web server, at most one web server,
wildcard requires the dns flag, at most one explicit challenge intent.  The
function is pure — it performs no filesystem or network effect. -/
def validateInstallFlags (f : InstallFlags) (domainList : List String) : Except Err Unit :=
  if ¬f.nginx ∧ ¬f.apache ∧ ¬f.iis then .error .noWebServer
  else if webServerCount f > 1 then .error .multiWebServer
  else if hasWildcardList domainList ∧ ¬f.dnsChallenge then .error .wildcardRequiresDNS
  else if challengeCount f > 1 then .error .conflictingIntent
  else .ok ()

/-- Modelled from the spec (§6/README): `config.GetCertDir` — the
`internal/config` package is not among the provided sources.  It returns the
Certificate Store root directory; its concrete value is irrelevant to every
claim. -/
def configGetCertDir : String := "/etc/autocert/certs"

/-- Constructor `NewManagerWithDomains` (manager.go:109): nil on an empty
list; challenge type defaults to webroot; Go zero values for the remaining
fields (empty webroot path, nginx = 0, no configurator bound). -/
def NewManagerWithDomains (domains : List String) (email : String) : Option Manager :=
  if domains.length = 0 then none
  else
    some { domains := domains, primaryDomain := domains.headD "", email := email,
           challengeType := .webroot, webrootPath := "", webServerType := .nginx,
           certDir := configGetCertDir, keySize := 2048, configurator := false }

/-- The challenge-selection chain of `installCertificate` (install.go:96-106):
dns flag or a wildcard forces DNS; else standalone; else webroot (with or
without an explicit path). -/
def selectChallengeType (f : InstallFlags) (certManager : Manager) : ChallengeType :=
  if f.dnsChallenge ∨ certManager.HasWildcard then .dns
  else if f.standalone then .standalone
  else .webroot

/-- Function `installCertificate` of `cmd/install.go` (lines 88-130): build
the manager, apply the challenge-selection chain and the webroot path, bind
the web-server configurator for the selected flag (`webserver.NewConfigurator`
succeeds for each of the three supported names), and run `Install`. -/
def installCertificate (f : InstallFlags) (domainList : List String) (o : Oracle)
    (now : Int) (s : St) : Except Err Unit × St :=
  match NewManagerWithDomains domainList f.email with
  | none => (.error .managerNil, s)
  | some certManager =>
    let certManager :=
      { certManager with
        challengeType := selectChallengeType f certManager,
        webrootPath :=
          if ¬f.dnsChallenge ∧ ¬certManager.HasWildcard ∧ ¬f.standalone ∧ f.webroot ≠ ""
          then f.webroot else certManager.webrootPath }
    let certManager :=
      if f.nginx then { certManager with webServerType := .nginx, configurator := true }
      else if f.apache then { certManager with webServerType := .apache, configurator := true }
      else if f.iis then { certManager with webServerType := .iis, configurator := true }
      else certManager
    install certManager o now s

/-- Function `runInstall` of `cmd/install.go` (lines 69-85): parse the domain
flags, validate all flags, then `installCertificate`. -/
def runInstall (f : InstallFlags) (o : Oracle) (now : Int) (s : St) : Except Err Unit × St :=
  match parseDomains f with
  | .error e => (.error e, s)
  | .ok domainList =>
    match validateInstallFlags f domainList with
    | .error e => (.error e, s)
    | .ok _ => installCertificate f domainList o now s

/-! The `internal/acme` package: account store and client construction
(`client.go`). -/

/-- Function `sanitizeEmail` of `internal/acme/client.go` (lines 344-355):
keep ASCII letters, digits, dash, underscore and dot; replace every other
rune by an underscore. -/
def sanitizeEmail (email : String) : String :=
  ⟨email.data.map (fun c =>
    if ('a' ≤ c ∧ c ≤ 'z') ∨ ('A' ≤ c ∧ c ≤ 'Z') ∨ ('0' ≤ c ∧ c ≤ '9')
        ∨ c = '-' ∨ c = '_' ∨ c = '.'
    then c else '_')⟩

/-- The character set `[a-zA-Z0-9._-]` of claim C10, as a decidable test. -/
def isEmailSafeChar (c : Char) : Bool :=
  decide (('a' ≤ c ∧ c ≤ 'z') ∨ ('A' ≤ c ∧ c ≤ 'Z') ∨ ('0' ≤ c ∧ c ≤ '9')
    ∨ c = '-' ∨ c = '_' ∨ c = '.')

/-- The per-account directory `filepath.Join(configDir, "accounts",
sanitizeEmail(email))` used by both `loadOrCreateUser` and `saveUser`. -/
def userDir (configDir email : String) : String :=
  joinPath (joinPath configDir "accounts") (sanitizeEmail email)

/-- An opaque `registration.Resource` reference. -/
structure RegistrationResource where
  uri : String
deriving DecidableEq, Repr

/-- The `User` struct of `internal/acme/client.go`: email, optional
registration reference, account key pair. -/
structure AcmeUser where
  email : String
  registration : Option RegistrationResource
  keyId : Nat
deriving DecidableEq, Repr

/-- The `ClientConfig` struct of `internal/acme/client.go`. -/
structure ClientConfig where
  email : String
  configDir : String
  staging : Bool
  webroot : String
deriving DecidableEq, Repr

/-- The `Client` struct of `internal/acme/client.go` (the lego handle is
opaque and omitted). -/
structure AcmeClient where
  user : AcmeUser
  configDir : String
  staging : Bool
  webroot : String
deriving DecidableEq, Repr

/-- Filesystem / network events of the account store. -/
inductive AEvent
  | accountKeyWrite (path : String) (keyId : Nat) (mode : Nat)
  | remoteRegister
  | accountJsonWrite (path : String)
deriving DecidableEq, Repr

/-- Outcomes of the fallible calls inside `NewClient`. -/
structure AcmeOracle where
  loadUserOk : Bool       -- reading and parsing account.json / account.key
  userKeyGenOk : Bool     -- ecdsa.GenerateKey for a new account
  userDirOk : Bool        -- os.MkdirAll(userDir, 0700)
  userKeyWriteOk : Bool   -- os.WriteFile(keyFile, ..., 0600)
  legoNewClientOk : Bool  -- lego.NewClient
  registerOk : Bool       -- Registration.Register
  saveUserOk : Bool       -- saveUser (MkdirAll + WriteFile account.json)
deriving DecidableEq, Repr

/-- Method `loadOrCreateUser` (client.go:244-289).  `disk` is the stored
account when `account.json` exists at the derived path.  A missing account is
created: generate an ECDSA key (a fresh draw `k` from the entropy counter),
make the directory, persist `account.key` with mode 0600, and return a user
with no registration reference yet.  Returns the user, the events, and the
next entropy counter. -/
def loadOrCreateUser (configDir : String) (disk : Option AcmeUser) (o : AcmeOracle)
    (k : Nat) (email : String) : Except Err AcmeUser × List AEvent × Nat :=
  match disk with
  | some stored =>
    if o.loadUserOk then (.ok stored, [], k)
    else (.error .loadUserFailed, [], k)
  | none =>
    if o.userKeyGenOk = false then (.error .loadUserFailed, [], k)
    else
      let user : AcmeUser := { email := email, registration := none, keyId := k }
      if o.userDirOk = false then (.error .loadUserFailed, [], k + 1)
      else if o.userKeyWriteOk = false then (.error .loadUserFailed, [], k + 1)
      else
        (.ok user,
          [.accountKeyWrite (joinPath (userDir configDir email) "account.key") k 600],
          k + 1)

/-- Function `NewClient` (client.go:74-132): require an email, load or create
the account, create the lego client, and — only when the account has no
registration reference — register remotely; a failed registration is fatal,
while a failure of `saveUser` *after* a successful registration is only
logged (client.go:125-127) and the constructed client is returned. -/
def NewClient (cfg : ClientConfig) (disk : Option AcmeUser) (o : AcmeOracle)
    (k : Nat) : Except Err AcmeClient × List AEvent :=
  if cfg.email = "" then (.error .emptyEmail, [])
  else
    match loadOrCreateUser cfg.configDir disk o k cfg.email with
    | (.error e, evs, _) => (.error e, evs)
    | (.ok user, evs, _) =>
      if o.legoNewClientOk = false then (.error .legoClientFailed, evs)
      else
        match user.registration with
        | some _ =>
          (.ok { user := user, configDir := cfg.configDir, staging := cfg.staging,
                 webroot := cfg.webroot }, evs)
        | none =>
          let evs1 := evs ++ [AEvent.remoteRegister]
          if o.registerOk = false then (.error .registrationFailed, evs1)
          else
            let user1 := { user with registration := some { uri := "acme-reg" } }
            let client : AcmeClient :=
              { user := user1, configDir := cfg.configDir, staging := cfg.staging,
                webroot := cfg.webroot }
            if o.saveUserOk then
              (.ok client,
                evs1 ++ [.accountJsonWrite
                  (joinPath (userDir cfg.configDir user1.email) "account.json")])
            else
              (.ok client, evs1)

/-! Classification of events, used to state the temporal claims. -/

/-- Remote (network) interactions with the ACME authority. -/
def isRemoteEvent : Event → Bool
  | .remoteNewClient => true
  | .remoteSetChallenge => true
  | .remoteObtain => true
  | .remoteSaveFiles _ => true
  | _ => false

/-- Web-server configurator invocations. -/
def isWsEvent : Event → Bool
  | .wsConfigure => true
  | .wsTest => true
  | .wsReload => true
  | _ => false

/-! Helper lemmas: each pipeline step only appends to the event trace, and
none of the steps before `configureWebServer` emits a configurator event. -/

lemma generateSelfSignedCert_events (m : Manager) (o : Oracle) (csr : Option CSR)
    (now : Int) (s : St) :
    ((generateSelfSignedCert m o csr now s).2).events = s.events := by
  by_cases h : o.selfSignOk <;> simp [generateSelfSignedCert, h]

lemma acmeObtainAndSave_ext (m : Manager) (o : Oracle) (now : Int) (s : St) :
    ∃ δ, ((acmeObtainAndSave m o now s).2).events = s.events ++ δ ∧
      ∀ e ∈ δ, isWsEvent e = false := by
  unfold acmeObtainAndSave
  by_cases h1 : o.obtainOk = false
  · refine ⟨[.remoteObtain], ?_, ?_⟩
    · simp [h1, generateSelfSignedCert_events, St.addEvent]
    · intro e he; simp at he; subst he; rfl
  · by_cases h2 : o.saveRemoteOk
    · refine ⟨[.remoteObtain, .remoteSaveFiles m.certDirPath], ?_, ?_⟩
      · simp [h1, h2, St.addEvent]
      · intro e he; simp at he
        rcases he with rfl | rfl <;> rfl
    · refine ⟨[.remoteObtain], ?_, ?_⟩
      · simp [h1, h2, St.addEvent]
      · intro e he; simp at he; subst he; rfl

lemma obtainWithACME_ext (m : Manager) (o : Oracle) (ct : AcmeChallengeType)
    (now : Int) (s : St) :
    ∃ δ, ((obtainWithACME m o ct now s).2).events = s.events ++ δ ∧
      ∀ e ∈ δ, isWsEvent e = false := by
  unfold obtainWithACME
  by_cases h1 : o.newClientOk = false
  · refine ⟨[.remoteNewClient], ?_, ?_⟩
    · simp [h1, generateSelfSignedCert_events, St.addEvent]
    · intro e he; simp at he; subst he; rfl
  · cases ct with
    | http01 =>
      by_cases h2 : o.setChallengeOk = false
      · refine ⟨[.remoteNewClient, .remoteSetChallenge], ?_, ?_⟩
        · simp [h1, h2, generateSelfSignedCert_events, St.addEvent]
        · intro e he; simp at he
          rcases he with rfl | rfl <;> rfl
      · obtain ⟨δ, hδ, hws⟩ :=
          acmeObtainAndSave_ext m o now ((s.addEvent .remoteNewClient).addEvent .remoteSetChallenge)
        refine ⟨[.remoteNewClient, .remoteSetChallenge] ++ δ, ?_, ?_⟩
        · simp [h1, h2, St.addEvent] at hδ ⊢
          simp [hδ]
        · intro e he
          rcases List.mem_append.mp he with h | h
          · simp at h; rcases h with rfl | rfl <;> rfl
          · exact hws e h
    | tlsalpn01 =>
      by_cases h2 : o.setChallengeOk = false
      · refine ⟨[.remoteNewClient, .remoteSetChallenge], ?_, ?_⟩
        · simp [h1, h2, generateSelfSignedCert_events, St.addEvent]
        · intro e he; simp at he
          rcases he with rfl | rfl <;> rfl
      · obtain ⟨δ, hδ, hws⟩ :=
          acmeObtainAndSave_ext m o now ((s.addEvent .remoteNewClient).addEvent .remoteSetChallenge)
        refine ⟨[.remoteNewClient, .remoteSetChallenge] ++ δ, ?_, ?_⟩
        · simp [h1, h2, St.addEvent] at hδ ⊢
          simp [hδ]
        · intro e he
          rcases List.mem_append.mp he with h | h
          · simp at h; rcases h with rfl | rfl <;> rfl
          · exact hws e h
    | dns01 =>
      obtain ⟨δ, hδ, hws⟩ := acmeObtainAndSave_ext m o now (s.addEvent .remoteNewClient)
      refine ⟨[.remoteNewClient] ++ δ, ?_, ?_⟩
      · simp [h1, St.addEvent] at hδ ⊢
        simp [hδ]
      · intro e he
        rcases List.mem_append.mp he with h | h
        · simp at h; subst h; rfl
        · exact hws e h

lemma obtainCertificate_ext (m : Manager) (o : Oracle) (csr : CSR) (now : Int) (s : St) :
    ∃ δ, ((obtainCertificate m o csr now s).2).events = s.events ++ δ ∧
      ∀ e ∈ δ, isWsEvent e = false := by
  unfold obtainCertificate obtainCertificateWebroot obtainCertificateStandalone
    obtainCertificateDNS
  cases hct : m.challengeType
  case webroot | standalone =>
    by_cases hw : m.HasWildcard
    · exact ⟨[], by simp [hw], by simp⟩
    · simpa [hw] using obtainWithACME_ext m o _ now s
  case dns =>
    exact ⟨[], by simp [generateSelfSignedCert_events], by simp⟩

lemma saveCertificate_ext (m : Manager) (o : Oracle) (certBytes : Certificate) (s : St) :
    ∃ δ, ((saveCertificate m o certBytes s).2).events = s.events ++ δ ∧
      ∀ e ∈ δ, isWsEvent e = false := by
  unfold saveCertificate
  by_cases h1 : o.certWriteOk = false
  · exact ⟨[], by simp [h1], by simp⟩
  · by_cases h2 : m.domains.length > 1
    · by_cases h3 : o.domainsWriteOk
      · refine ⟨[.certWrite m.getCertPath certBytes,
          .domainsWrite (joinPath m.certDirPath "domains.txt")], ?_, ?_⟩
        · simp [h1, h2, h3, St.addEvent]
        · intro e he; simp at he; rcases he with rfl | rfl <;> rfl
      · refine ⟨[.certWrite m.getCertPath certBytes], ?_, ?_⟩
        · simp [h1, h2, h3, St.addEvent]
        · intro e he; simp at he; subst he; rfl
    · refine ⟨[.certWrite m.getCertPath certBytes], ?_, ?_⟩
      · simp [h1, h2, St.addEvent]
      · intro e he; simp at he; subst he; rfl

lemma configureWebServer_ext (m : Manager) (o : Oracle) (s : St) :
    ∃ δ, ((configureWebServer m o s).2).events = s.events ++ δ := by
  unfold configureWebServer
  by_cases h0 : m.configurator = false
  · exact ⟨[], by simp [h0]⟩
  · by_cases h1 : o.configureOk = false
    · exact ⟨[.wsConfigure], by simp [h0, h1, St.addEvent]⟩
    · by_cases h2 : o.testOk = false
      · exact ⟨[.wsConfigure, .wsTest], by simp [h0, h1, h2, St.addEvent]⟩
      · by_cases h3 : o.reloadOk = false
        · exact ⟨[.wsConfigure, .wsTest, .wsReload], by simp [h0, h1, h2, h3, St.addEvent]⟩
        · exact ⟨[.wsConfigure, .wsTest, .wsReload], by simp [h0, h1, h2, h3, St.addEvent]⟩

lemma createCertDir_spec (m : Manager) (o : Oracle) (s : St) :
    createCertDir m o s = (.ok (), s.addEvent (.mkdirCertDir m.certDirPath)) ∨
    createCertDir m o s = (.error .mkdirFailed, s) := by
  by_cases h : o.mkdirOk
  · left; simp [createCertDir, h]
  · right; simp [createCertDir, h]

lemma generatePrivateKey_spec (m : Manager) (o : Oracle) (s : St) :
    generatePrivateKey m o s =
      (.ok ⟨s.keyCtr⟩, ⟨s.events ++ [.keyWrite m.getKeyPath s.keyCtr 600], s.keyCtr + 1⟩) ∨
    (∃ er s2, generatePrivateKey m o s = (.error er, s2) ∧
      ∃ δ, s2.events = s.events ++ δ ∧
        ∀ e ∈ δ, isRemoteEvent e = false ∧ isWsEvent e = false) := by
  by_cases h1 : o.keyGenOk
  · by_cases h2 : o.keyCreateOk
    · by_cases h3 : o.keyChmodOk
      · left; simp [generatePrivateKey, h1, h2, h3]
      · right
        refine ⟨.keyChmodFailed,
          ⟨s.events ++ [.keyWrite m.getKeyPath s.keyCtr 666], s.keyCtr + 1⟩,
          by simp [generatePrivateKey, h1, h2, h3],
          [.keyWrite m.getKeyPath s.keyCtr 666], rfl, ?_⟩
        intro e he; simp at he; subst he; exact ⟨rfl, rfl⟩
    · right
      exact ⟨.keyWriteFailed, ⟨s.events, s.keyCtr + 1⟩,
        by simp [generatePrivateKey, h1, h2], [], by simp, by simp⟩
  · right
    exact ⟨.keyGenFailed, s, by simp [generatePrivateKey, h1], [], by simp, by simp⟩

lemma configureWebServer_spec (m : Manager) (o : Oracle) (s : St)
    (h : m.configurator = true) :
    (o.configureOk = false →
      configureWebServer m o s =
        (.error .configureFailed, ⟨s.events ++ [.wsConfigure], s.keyCtr⟩)) ∧
    (o.configureOk = true → o.testOk = false →
      configureWebServer m o s =
        (.error .testFailed, ⟨s.events ++ [.wsConfigure, .wsTest], s.keyCtr⟩)) ∧
    (o.configureOk = true → o.testOk = true → o.reloadOk = false →
      configureWebServer m o s =
        (.error .reloadFailed, ⟨s.events ++ [.wsConfigure, .wsTest, .wsReload], s.keyCtr⟩)) ∧
    (o.configureOk = true → o.testOk = true → o.reloadOk = true →
      configureWebServer m o s =
        (.ok (), ⟨s.events ++ [.wsConfigure, .wsTest, .wsReload], s.keyCtr⟩)) := by
  refine ⟨?_, ?_, ?_, ?_⟩ <;> intros <;>
    simp_all [configureWebServer, St.addEvent]

/-- Decomposition of a run of `install`: either the run reaches the final
`configureWebServer` call on a state whose new events contain no configurator
event, or it stops earlier with an error having emitted no configurator
event. -/
lemma install_split (m : Manager) (o : Oracle) (now : Int) (s : St) :
    (∃ s', install m o now s = configureWebServer m o s' ∧
       ∃ δ, s'.events = s.events ++ δ ∧ ∀ e ∈ δ, isWsEvent e = false) ∨
    (∃ er, (install m o now s).1 = .error er ∧
       ∃ δ, ((install m o now s).2).events = s.events ++ δ ∧
         ∀ e ∈ δ, isWsEvent e = false) := by
  unfold install
  by_cases hguard : (m.HasWildcard = true ∧ m.challengeType ≠ ChallengeType.dns)
  · rw [if_pos hguard]
    right
    exact ⟨.wildcardRequiresDNS, rfl, [], by simp, by simp⟩
  · rw [if_neg hguard]
    split
    · -- createCertDir returned an error
      rename_i e1 s1 heq1
      rcases createCertDir_spec m o s with h | h <;> rw [h] at heq1
      · simp at heq1
      · simp only [Prod.mk.injEq, Except.error.injEq] at heq1
        obtain ⟨rfl, rfl⟩ := heq1
        right
        exact ⟨_, rfl, [], by simp, by simp⟩
    · rename_i u1 s1 heq1
      rcases createCertDir_spec m o s with h | h
      on_goal 2 => rw [h] at heq1; simp at heq1
      rw [h] at heq1
      simp only [Prod.mk.injEq, Except.ok.injEq] at heq1
      obtain ⟨-, rfl⟩ := heq1
      split
      · -- generatePrivateKey returned an error
        rename_i e2 s2 heq2
        rcases generatePrivateKey_spec m o (s.addEvent (.mkdirCertDir m.certDirPath)) with
          h | ⟨er, s2', h, δ2, hδ2, hfree2⟩ <;> rw [h] at heq2
        · simp at heq2
        · simp only [Prod.mk.injEq, Except.error.injEq] at heq2
          obtain ⟨rfl, rfl⟩ := heq2
          right
          refine ⟨er, rfl, [.mkdirCertDir m.certDirPath] ++ δ2, ?_, ?_⟩
          · simpa [St.addEvent] using hδ2
          · exact List.forall_mem_append.mpr ⟨by simp [isWsEvent], fun e he => (hfree2 e he).2⟩
      · rename_i privateKey s2 heq2
        rcases generatePrivateKey_spec m o (s.addEvent (.mkdirCertDir m.certDirPath)) with
          h | ⟨er, s2', h, δ2, hδ2, hfree2⟩
        on_goal 2 => rw [h] at heq2; simp at heq2
        rw [h] at heq2
        simp only [Prod.mk.injEq, Except.ok.injEq] at heq2
        obtain ⟨rfl, rfl⟩ := heq2
        split
        · -- createCSR returned an error
          rename_i e3 heq3
          by_cases h3 : o.csrOk <;> simp [createCSR, h3] at heq3
          subst heq3
          right
          refine ⟨.csrFailed, rfl, [.mkdirCertDir m.certDirPath,
            .keyWrite m.getKeyPath (s.addEvent (.mkdirCertDir m.certDirPath)).keyCtr 600],
            by simp [St.addEvent], by simp [isWsEvent]⟩
        · rename_i csr heq3
          obtain ⟨δ3, hδ3, hfree3⟩ := obtainCertificate_ext m o csr now
            ⟨(s.addEvent (.mkdirCertDir m.certDirPath)).events ++
              [.keyWrite m.getKeyPath (s.addEvent (.mkdirCertDir m.certDirPath)).keyCtr 600],
              (s.addEvent (.mkdirCertDir m.certDirPath)).keyCtr + 1⟩
          split
          · -- obtainCertificate returned an error
            rename_i e4 s4 heq4
            rw [heq4] at hδ3
            right
            refine ⟨e4, rfl, [.mkdirCertDir m.certDirPath,
              .keyWrite m.getKeyPath (s.addEvent (.mkdirCertDir m.certDirPath)).keyCtr 600]
              ++ δ3, ?_, ?_⟩
            · simpa [St.addEvent] using hδ3
            · exact List.forall_mem_append.mpr ⟨by simp [isWsEvent], hfree3⟩
          · rename_i cert4 s4 heq4
            rw [heq4] at hδ3
            obtain ⟨δ5, hδ5, hfree5⟩ := saveCertificate_ext m o cert4 s4
            split
            · -- saveCertificate returned an error
              rename_i e5 s5 heq5
              rw [heq5] at hδ5
              right
              refine ⟨e5, rfl, ([.mkdirCertDir m.certDirPath,
                .keyWrite m.getKeyPath (s.addEvent (.mkdirCertDir m.certDirPath)).keyCtr 600]
                ++ δ3) ++ δ5, ?_, ?_⟩
              · rw [hδ5, hδ3]; simp [St.addEvent]
              · exact List.forall_mem_append.mpr
                  ⟨List.forall_mem_append.mpr ⟨by simp [isWsEvent], hfree3⟩, hfree5⟩
            · rename_i u5 s5 heq5
              rw [heq5] at hδ5
              left
              refine ⟨s5, rfl, ([.mkdirCertDir m.certDirPath,
                .keyWrite m.getKeyPath (s.addEvent (.mkdirCertDir m.certDirPath)).keyCtr 600]
                ++ δ3) ++ δ5, ?_, ?_⟩
              · rw [hδ5, hδ3]; simp [St.addEvent]
              · exact List.forall_mem_append.mpr
                  ⟨List.forall_mem_append.mpr ⟨by simp [isWsEvent], hfree3⟩, hfree5⟩

/-- A run of `install` that emits any remote event necessarily got past
`createCertDir` and `generatePrivateKey`, so its new events start with
exactly the directory creation followed by the 0600 key write. -/
lemma install_remote_prefix (m : Manager) (o : Oracle) (now : Int) (s : St)
    (e : Event) (he : e ∈ ((install m o now s).2).events)
    (her : isRemoteEvent e = true)
    (hs : ∀ e' ∈ s.events, isRemoteEvent e' = false) :
    ∃ rest, ((install m o now s).2).events =
      s.events ++ [.mkdirCertDir m.certDirPath, .keyWrite m.getKeyPath s.keyCtr 600]
        ++ rest := by
  revert he
  unfold install
  by_cases hguard : (m.HasWildcard = true ∧ m.challengeType ≠ ChallengeType.dns)
  · rw [if_pos hguard]
    intro he
    exact absurd her (by simp [hs e he])
  · rw [if_neg hguard]
    split
    · -- createCertDir returned an error: state unchanged, no remote event
      rename_i e1 s1 heq1
      rcases createCertDir_spec m o s with h | h
      on_goal 1 => rw [h] at heq1; simp at heq1
      rw [h] at heq1
      simp only [Prod.mk.injEq, Except.error.injEq] at heq1
      obtain ⟨rfl, rfl⟩ := heq1
      intro he
      exact absurd her (by simp [hs e he])
    · rename_i u1 s1 heq1
      rcases createCertDir_spec m o s with h | h
      on_goal 2 => rw [h] at heq1; simp at heq1
      rw [h] at heq1
      simp only [Prod.mk.injEq, Except.ok.injEq] at heq1
      obtain ⟨-, rfl⟩ := heq1
      split
      · -- generatePrivateKey returned an error: no remote event emitted yet
        rename_i e2 s2 heq2
        rcases generatePrivateKey_spec m o (s.addEvent (.mkdirCertDir m.certDirPath)) with
          h | ⟨er, s2', h, δ2, hδ2, hfree2⟩
        on_goal 1 => rw [h] at heq2; simp at heq2
        rw [h] at heq2
        simp only [Prod.mk.injEq, Except.error.injEq] at heq2
        obtain ⟨rfl, rfl⟩ := heq2
        intro he
        rw [hδ2] at he
        simp only [St.addEvent, List.append_assoc, List.mem_append] at he
        rcases he with he | he | he
        · exact absurd her (by simp [hs e he])
        · simp at he; subst he; simp [isRemoteEvent] at her
        · exact absurd her (by simp [(hfree2 e he).1])
      · rename_i privateKey s2 heq2
        rcases generatePrivateKey_spec m o (s.addEvent (.mkdirCertDir m.certDirPath)) with
          h | ⟨er, s2', h, δ2, hδ2, hfree2⟩
        on_goal 2 => rw [h] at heq2; simp at heq2
        rw [h] at heq2
        simp only [Prod.mk.injEq, Except.ok.injEq] at heq2
        obtain ⟨rfl, rfl⟩ := heq2
        split
        · -- createCSR failed: trace ends right after the key write
          rename_i e3 heq3
          intro he
          exact ⟨[], by simp [St.addEvent]⟩
        · rename_i csr heq3
          obtain ⟨δ3, hδ3, -⟩ := obtainCertificate_ext m o csr now
            ⟨(s.addEvent (.mkdirCertDir m.certDirPath)).events ++
              [.keyWrite m.getKeyPath (s.addEvent (.mkdirCertDir m.certDirPath)).keyCtr 600],
              (s.addEvent (.mkdirCertDir m.certDirPath)).keyCtr + 1⟩
          split
          · rename_i e4 s4 heq4
            rw [heq4] at hδ3
            intro he
            exact ⟨δ3, by simpa [St.addEvent] using hδ3⟩
          · rename_i cert4 s4 heq4
            rw [heq4] at hδ3
            obtain ⟨δ5, hδ5, -⟩ := saveCertificate_ext m o cert4 s4
            split
            · rename_i e5 s5 heq5
              rw [heq5] at hδ5
              intro he
              refine ⟨δ3 ++ δ5, ?_⟩
              rw [hδ5, hδ3]
              simp [St.addEvent]
            · rename_i u5 s5 heq5
              rw [heq5] at hδ5
              obtain ⟨δ6, hδ6⟩ := configureWebServer_ext m o s5
              intro he
              refine ⟨(δ3 ++ δ5) ++ δ6, ?_⟩
              rw [hδ6, hδ5, hδ3]
              simp [St.addEvent]

/-- Truncating division agrees with floor division on non-negative
operands. -/
lemma tdiv_eq_fdiv_of_nonneg (a b : Int) (ha : 0 ≤ a) (hb : 0 ≤ b) :
    Int.tdiv a b = Int.fdiv a b := by
  obtain ⟨m, rfl⟩ := Int.eq_ofNat_of_zero_le ha
  obtain ⟨n, rfl⟩ := Int.eq_ofNat_of_zero_le hb
  cases m with
  | zero => simp [Int.tdiv, Int.fdiv]
  | succ l => rfl

lemma saveCertificate_ok (m : Manager) (o : Oracle) (certBytes : Certificate) (s : St)
    (h : o.certWriteOk = true) :
    (saveCertificate m o certBytes s).1 = .ok () ∧
    Event.certWrite m.getCertPath certBytes ∈ ((saveCertificate m o certBytes s).2).events ∧
    ∀ e ∈ s.events, e ∈ ((saveCertificate m o certBytes s).2).events := by
  unfold saveCertificate
  by_cases h2 : m.domains.length > 1 <;> by_cases h3 : o.domainsWriteOk <;>
    simp [h, h2, h3, St.addEvent] <;> intro e he <;> simp [he]

lemma configureWebServer_ok (m : Manager) (o : Oracle) (s : St)
    (h1 : o.configureOk = true) (h2 : o.testOk = true) (h3 : o.reloadOk = true) :
    (configureWebServer m o s).1 = .ok () ∧
    ∀ e ∈ s.events, e ∈ ((configureWebServer m o s).2).events := by
  by_cases h0 : m.configurator = false <;>
    simp [configureWebServer, h0, h1, h2, h3, St.addEvent] <;> intro e he <;> simp [he]

/-- When any of the three remote steps fails, `obtainWithACME` falls back to
a self-signed certificate built from the manager's fields and a fresh key
draw, and reports success. -/
lemma obtainWithACME_fallback (m : Manager) (o : Oracle) (ct : AcmeChallengeType)
    (now : Int) (s : St)
    (hct : ct = .http01 ∨ ct = .tlsalpn01)
    (hss : o.selfSignOk = true)
    (hfail : o.newClientOk = false ∨ o.setChallengeOk = false ∨ o.obtainOk = false) :
    ∃ δ, obtainWithACME m o ct now s =
      (.ok { subjectCN := m.primaryDomain, dnsNames := m.domains, notBefore := now,
             notAfter := now + days90ns, keyId := s.keyCtr, selfSigned := true },
        ⟨s.events ++ δ, s.keyCtr + 1⟩) := by
  have hbody : ∀ s' : St, o.obtainOk = false →
      acmeObtainAndSave m o now s' =
        (.ok { subjectCN := m.primaryDomain, dnsNames := m.domains, notBefore := now,
               notAfter := now + days90ns, keyId := s'.keyCtr, selfSigned := true },
          ⟨s'.events ++ [.remoteObtain], s'.keyCtr + 1⟩) := by
    intro s' hobt
    simp [acmeObtainAndSave, hobt, generateSelfSignedCert, hss, St.addEvent]
  rcases hct with rfl | rfl <;>
  · by_cases hnc : o.newClientOk = false
    · exact ⟨[.remoteNewClient],
        by simp [obtainWithACME, hnc, generateSelfSignedCert, hss, St.addEvent]⟩
    · by_cases hsc : o.setChallengeOk = false
      · exact ⟨[.remoteNewClient, .remoteSetChallenge],
          by simp [obtainWithACME, hnc, hsc, generateSelfSignedCert, hss, St.addEvent]⟩
      · have hobt : o.obtainOk = false := by
          rcases hfail with h | h | h
          · exact absurd h hnc
          · exact absurd h hsc
          · exact h
        refine ⟨[.remoteNewClient, .remoteSetChallenge, .remoteObtain], ?_⟩
        simp only [obtainWithACME, hnc, hsc, if_false]
        rw [hbody _ hobt]
        simp [St.addEvent]

/-- Under the webroot or standalone challenge with no wildcard, a failing
remote path makes `obtainCertificate` return a self-signed fallback
certificate. -/
lemma obtainCertificate_fallback (m : Manager) (o : Oracle) (csr : CSR) (now : Int)
    (s : St)
    (hct : m.challengeType = .webroot ∨ m.challengeType = .standalone)
    (hw : m.HasWildcard = false)
    (hss : o.selfSignOk = true)
    (hfail : o.newClientOk = false ∨ o.setChallengeOk = false ∨ o.obtainOk = false) :
    ∃ δ, obtainCertificate m o csr now s =
      (.ok { subjectCN := m.primaryDomain, dnsNames := m.domains, notBefore := now,
             notAfter := now + days90ns, keyId := s.keyCtr, selfSigned := true },
        ⟨s.events ++ δ, s.keyCtr + 1⟩) := by
  rcases hct with h | h <;> rw [obtainCertificate, h]
  · simpa [obtainCertificateWebroot, hw] using
      obtainWithACME_fallback m o .http01 now s (.inl rfl) hss hfail
  · simpa [obtainCertificateStandalone, hw] using
      obtainWithACME_fallback m o .tlsalpn01 now s (.inr rfl) hss hfail

/-! Concrete fixtures used by witnesses and counterexamples. -/

/-- A single-domain webroot manager with a bound nginx configurator, as
`installCertificate` builds for `--domain example.com --nginx`. -/
def exampleManager : Manager :=
  { domains := ["example.com"], primaryDomain := "example.com",
    email := "admin@example.com", challengeType := .webroot, webrootPath := "",
    webServerType := .nginx, certDir := configGetCertDir, keySize := 2048,
    configurator := true }

/-- A wildcard manager left on the default webroot challenge. -/
def wildcardManager : Manager :=
  { domains := ["*.example.com"], primaryDomain := "*.example.com",
    email := "admin@example.com", challengeType := .webroot, webrootPath := "",
    webServerType := .nginx, certDir := configGetCertDir, keySize := 2048,
    configurator := true }

/-- The environment in which every external call succeeds. -/
def oracleAllOk : Oracle :=
  { mkdirOk := true, keyGenOk := true, keyCreateOk := true, keyChmodOk := true,
    csrOk := true, newClientOk := true, setChallengeOk := true, obtainOk := true,
    selfSignOk := true, saveRemoteOk := true, certWriteOk := true,
    domainsWriteOk := true, configureOk := true, testOk := true, reloadOk := true,
    issuedNotAfter := 90 * nsPerDay }

/-- The environment in which `acme.NewClient` fails and everything else
succeeds. -/
def oracleClientFail : Oracle :=
  { oracleAllOk with newClientOk := false }

/-- A certificate for `example.com` that is 40 days from expiry at time 0. -/
def certFresh40d : Certificate :=
  { subjectCN := "example.com", dnsNames := ["example.com"],
    notBefore := 0, notAfter := 40 * nsPerDay, keyId := 0, selfSigned := false }

/-- A certificate for `example.com` whose `NotAfter` is the epoch; queried 36
hours later it is 1.5 days past expiry. -/
def certExpiredAtEpoch : Certificate :=
  { subjectCN := "example.com", dnsNames := ["example.com"],
    notBefore := 0, notAfter := 0, keyId := 0, selfSigned := false }

/-! Claim C2. -/

/-- C2: for a domain set with a wildcard entry and a selected challenge type
other than DNS, `Install` fails with the wildcard-requires-DNS error leaving
the state untouched (no directory, no key, no remote call); and in the
validated CLI path (`validateInstallFlags` succeeded), a wildcard domain list
implies the dns flag was set explicitly, so the selection of DNS is never a
silent correction. -/
theorem C2_wildcard_requires_dns (m : Manager) (o : Oracle) (now : Int) (s : St)
    (hw : m.HasWildcard = true) (hct : m.challengeType ≠ ChallengeType.dns) :
    install m o now s = (.error .wildcardRequiresDNS, s) ∧
    ∀ (f : InstallFlags) (dl : List String),
      validateInstallFlags f dl = .ok () → hasWildcardList dl = true →
      f.dnsChallenge = true := by
  constructor
  · unfold install
    rw [if_pos ⟨hw, hct⟩]
  · intro f dl hval hwl
    by_contra hdns
    simp only [Bool.not_eq_true] at hdns
    by_cases hn : f.nginx <;> by_cases ha : f.apache <;> by_cases hi : f.iis <;>
      simp [validateInstallFlags, webServerCount, hn, ha, hi, hwl, hdns] at hval

/-- Witness for C2 at `*.example.com` with the webroot challenge. -/
theorem C2_wildcard_requires_dns_witness :
    install wildcardManager oracleAllOk 0 ⟨[], 0⟩ =
      (.error .wildcardRequiresDNS, ⟨[], 0⟩) :=
  (C2_wildcard_requires_dns wildcardManager oracleAllOk 0 ⟨[], 0⟩ (by decide)
    (by decide)).1

/-! Claim C3. -/

/-- C3: `Renew` reads the certificate status first; with strictly more than
30 days left it returns success immediately without any effect, and with at
most 30 days left (including exactly 30) it runs the full `Install`; 30 is a
fixed constant of the code. -/
theorem C3_renew_threshold (m : Manager) (o : Oracle)
    (diskCert : Option (Option Certificate)) (now : Int) (s : St) (info : CertInfo)
    (hinfo : getCertInfo m diskCert now = .ok info) :
    (info.daysLeft > 30 → renew m o diskCert now s = (.ok (), s)) ∧
    (info.daysLeft ≤ 30 → renew m o diskCert now s = install m o now s) := by
  constructor <;> intro h
  · unfold renew
    rw [hinfo]
    simp only
    rw [if_pos h]
  · unfold renew
    rw [hinfo]
    simp only
    rw [if_neg (by omega)]

/-- Witness for C3: a certificate expiring in 40 days is not renewed. -/
theorem C3_renew_threshold_witness :
    renew exampleManager oracleAllOk (some (some certFresh40d)) 0 ⟨[], 0⟩ =
      (.ok (), ⟨[], 0⟩) :=
  (C3_renew_threshold exampleManager oracleAllOk (some (some certFresh40d)) 0
    ⟨[], 0⟩ _ rfl).1 (by decide)

/-! Claim C4. -/

/-- Counterexample to C4: for a certificate 36 hours past expiry the code
computes `DaysLeft = int(-36h/24) = -1` (truncation toward zero), while the
claimed `floor(hours/24)` is `-2`. -/
theorem C4_counterexample :
    ∃ info, getCertInfo exampleManager (some (some certExpiredAtEpoch))
      129600000000000 = .ok info ∧
    info.daysLeft = -1 ∧
    Int.fdiv (certExpiredAtEpoch.notAfter - 129600000000000) nsPerDay = -2 ∧
    info.daysLeft ≠ Int.fdiv (certExpiredAtEpoch.notAfter - 129600000000000) nsPerDay := by
  refine ⟨_, rfl, by decide, by decide, by decide⟩

/-- C4 as amended: days-until-expiry is the *truncation toward zero* of
`hours_until_not_after / 24` — which coincides with the claimed floor
whenever the certificate is not yet expired — and the validity flag is true
exactly when `now` is strictly before `NotAfter`. -/
theorem C4_days_left_truncation (m : Manager) (cert : Certificate) (now : Int)
    (info : CertInfo)
    (h : getCertInfo m (some (some cert)) now = .ok info) :
    info.daysLeft = Int.tdiv (cert.notAfter - now) nsPerDay ∧
    (info.isValid = true ↔ now < cert.notAfter) ∧
    (now ≤ cert.notAfter →
      info.daysLeft = Int.fdiv (cert.notAfter - now) nsPerDay) := by
  simp only [getCertInfo, Except.ok.injEq] at h
  subst h
  refine ⟨rfl, by simp, fun hle => ?_⟩
  simp only
  exact tdiv_eq_fdiv_of_nonneg _ _ (by omega) (by decide)

/-- Witness for C4 on a certificate with 40 days of validity left. -/
theorem C4_days_left_truncation_witness :
    ∃ info, getCertInfo exampleManager (some (some certFresh40d)) 0 = .ok info ∧
      info.daysLeft = Int.fdiv (certFresh40d.notAfter - 0) nsPerDay :=
  ⟨_, rfl, (C4_days_left_truncation exampleManager _ 0 _ rfl).2.2 (by decide)⟩

/-! Claim C5. -/

/-- The flags of `install --domain *.example.com --standalone --webroot
/var/www --nginx`: two explicit challenge intents and no dns flag. -/
def flagsConflictWildcard : InstallFlags :=
  { domain := "*.example.com", domains := "", email := "admin@example.com",
    webroot := "/var/www", standalone := true, dnsChallenge := false,
    nginx := true, apache := false, iis := false }

/-- Counterexample to C5: with two explicit intents (standalone and webroot)
on a wildcard domain and no dns flag, validation fails with the
wildcard-requires-DNS error — the wildcard check runs before the
conflicting-intent check — so the claimed conflicting-intent error is not
reported for every multi-intent request. -/
theorem C5_counterexample :
    challengeCount flagsConflictWildcard = 2 ∧
    runInstall flagsConflictWildcard oracleAllOk 0 ⟨[], 0⟩ =
      (.error .wildcardRequiresDNS, ⟨[], 0⟩) ∧
    Err.wildcardRequiresDNS ≠ Err.conflictingIntent := by
  refine ⟨by decide, rfl, by decide⟩

/-- C5 as amended: *provided* exactly one web-server flag is set and the
wildcard-requires-DNS check passes, more than one explicit challenge intent
fails with the conflicting-intent error (before any effect —
`validateInstallFlags` is pure); and with no explicit intent validation
succeeds and the selected challenge method is Webroot. -/
theorem C5_intent_selection (f : InstallFlags) (dl : List String)
    (hws : webServerCount f = 1)
    (hwc : ¬(hasWildcardList dl = true ∧ f.dnsChallenge = false)) :
    (challengeCount f > 1 → validateInstallFlags f dl = .error .conflictingIntent) ∧
    (challengeCount f = 0 → validateInstallFlags f dl = .ok ()) ∧
    (challengeCount f = 0 → ∀ m : Manager, m.domains = dl →
      selectChallengeType f m = .webroot) := by
  have hns : ¬(¬f.nginx ∧ ¬f.apache ∧ ¬f.iis) := by
    rintro ⟨h1, h2, h3⟩
    simp only [Bool.not_eq_true] at h1 h2 h3
    simp [webServerCount, h1, h2, h3] at hws
  have hms : ¬(webServerCount f > 1) := by omega
  have hwc' : ¬(hasWildcardList dl = true ∧ ¬f.dnsChallenge) := by
    rintro ⟨h1, h2⟩
    exact hwc ⟨h1, by simpa using h2⟩
  refine ⟨fun hcc => ?_, fun hcc => ?_, fun hcc m hm => ?_⟩
  · unfold validateInstallFlags
    rw [if_neg hns, if_neg hms, if_neg hwc', if_pos hcc]
  · unfold validateInstallFlags
    rw [if_neg hns, if_neg hms, if_neg hwc', if_neg (by omega)]
  · have hdns : f.dnsChallenge = false := by
      by_contra hd
      simp only [Bool.not_eq_false] at hd
      simp [challengeCount, hd] at hcc
    have hsa : f.standalone = false := by
      by_contra hd
      simp only [Bool.not_eq_false] at hd
      simp [challengeCount, hd] at hcc
    have hwild : m.HasWildcard = false := by
      by_contra hd
      simp only [Bool.not_eq_false] at hd
      exact hwc' ⟨by rwa [Manager.HasWildcard, hm] at hd, by simp [hdns]⟩
    unfold selectChallengeType
    rw [if_neg (by simp [hdns, hwild]), if_neg (by simp [hsa])]

/-- Flags of a plain `install --domain example.com --nginx` request. -/
def flagsDefaultWebroot : InstallFlags :=
  { domain := "example.com", domains := "", email := "admin@example.com",
    webroot := "", standalone := false, dnsChallenge := false,
    nginx := true, apache := false, iis := false }

/-- Witness for C5: the default request validates and selects Webroot. -/
theorem C5_intent_selection_witness :
    validateInstallFlags flagsDefaultWebroot ["example.com"] = .ok () ∧
    selectChallengeType flagsDefaultWebroot exampleManager = .webroot := by
  have h := C5_intent_selection flagsDefaultWebroot ["example.com"] (by decide)
    (by decide)
  exact ⟨h.2.1 (by decide), h.2.2 (by decide) exampleManager (by decide)⟩

/-! Claim C8. -/

/-- An entry with the wildcard prefix has at least two characters. -/
lemma two_le_length_of_star_dot (d : String) (h : stringsHasPrefix d "*." = true) :
    2 ≤ d.length := by
  obtain ⟨l⟩ := d
  rcases l with _ | ⟨c1, _ | ⟨c2, t⟩⟩
  · simp [stringsHasPrefix, List.isPrefixOf] at h
  · simp [stringsHasPrefix, List.isPrefixOf] at h
  · simp [String.length]

/-- Counterexample to C8: the code rejects the one-character wildcard base
`*.x` (claimed accepted), accepts `a*b.com` and `*x.com` (stars outside a
leading `*.` label are never checked, though the claim says they are
rejected), and accepts a domain containing a tab (the code checks only for
the space character, though the claim says all whitespace is rejected). -/
theorem C8_counterexample :
    validateDomainName "*.x" = .error .invalidWildcard ∧
    validateDomainName "a*b.com" = .ok () ∧
    validateDomainName "*x.com" = .ok () ∧
    validateDomainName "a\tb.com" = .ok () := by
  refine ⟨rfl, rfl, rfl, rfl⟩

/-- C8 as amended: validation (a pure function) rejects empty entries and
entries containing a *space* character; an entry with the leading wildcard
label `*.` must have total length at least 4 — that is, at least *two*
characters after the prefix, so `*.x` is rejected — and must not contain a
further `*`; entries not starting with `*.` undergo no star check at all;
and every entry of a domain list passing the parse loop is non-empty and
individually valid. -/
theorem C8_domain_validation (d : String) :
    (d.length = 0 → validateDomainName d = .error .emptyDomain) ∧
    (stringsContainsChar d ' ' = true → validateDomainName d ≠ .ok ()) ∧
    (stringsHasPrefix d "*." = true → d.length < 4 →
      validateDomainName d = .error .invalidWildcard) ∧
    (stringsHasPrefix d "*." = true → 4 ≤ d.length →
      stringsContainsChar (d.drop 2) '*' = true →
      validateDomainName d = .error .multiWildcard) ∧
    (stringsHasPrefix d "*." = true → 4 ≤ d.length →
      stringsContainsChar (d.drop 2) '*' = false →
      stringsContainsChar d ' ' = false →
      validateDomainName d = .ok ()) ∧
    (stringsHasPrefix d "*." = false → d.length ≠ 0 →
      stringsContainsChar d ' ' = false →
      validateDomainName d = .ok ()) ∧
    (∀ dl : List String, checkDomainList dl = .ok () →
      ∀ x ∈ dl, x ≠ "" ∧ validateDomainName x = .ok ()) := by
  refine ⟨?_, ?_, ?_, ?_, ?_, ?_, ?_⟩
  · intro h0
    unfold validateDomainName
    rw [if_pos h0]
  · intro hsp hok
    unfold validateDomainName at hok
    split_ifs at hok
  · intro hp hlen
    have h2 := two_le_length_of_star_dot d hp
    unfold validateDomainName
    rw [if_neg (by omega), if_pos ⟨hp, hlen⟩]
  · intro hp hlen hstar
    unfold validateDomainName
    rw [if_neg (by omega), if_neg (by rintro ⟨-, h⟩; omega), if_pos ⟨hp, hstar⟩]
  · intro hp hlen hstar hsp
    unfold validateDomainName
    rw [if_neg (by omega), if_neg (by rintro ⟨-, h⟩; omega),
      if_neg (by rintro ⟨-, h⟩; rw [hstar] at h; cases h), if_neg (by simp [hsp])]
  · intro hp hlen hsp
    unfold validateDomainName
    rw [if_neg hlen, if_neg (by rintro ⟨h, -⟩; rw [hp] at h; cases h),
      if_neg (by rintro ⟨h, -⟩; rw [hp] at h; cases h), if_neg (by simp [hsp])]
  · intro dl
    induction dl with
    | nil =>
      intro _ x hx
      cases hx
    | cons d' rest ih =>
      intro hok x hx
      unfold checkDomainList at hok
      by_cases hd : d' = ""
      · rw [if_pos hd] at hok
        cases hok
      · rw [if_neg hd] at hok
        rcases hv : validateDomainName d' with e | u
        · rw [hv] at hok
          cases hok
        · rw [hv] at hok
          rcases List.mem_cons.mp hx with rfl | hx
          · exact ⟨hd, by cases u; exact hv⟩
          · exact ih hok x hx

/-- Witness for C8: `*.ab` (two characters after the prefix) is accepted. -/
theorem C8_domain_validation_witness :
    validateDomainName "*.ab" = .ok () :=
  (C8_domain_validation "*.ab").2.2.2.2.1 (by decide) (by decide) (by decide)
    (by decide)

/-! Claim C9. -/

/-- The account-store loader performs no remote registration itself. -/
lemma loadOrCreateUser_no_register (configDir : String) (disk : Option AcmeUser)
    (o : AcmeOracle) (k : Nat) (email : String) :
    AEvent.remoteRegister ∉ (loadOrCreateUser configDir disk o k email).2.1 := by
  unfold loadOrCreateUser
  rcases disk with _ | stored <;> split_ifs <;> simp

/-- C9: when the loaded account has no registration reference, the remote
registration succeeds, and persisting the updated account afterwards fails,
`NewClient` still returns a constructed client carrying the fresh
registration reference (the persistence failure is only logged); and the
remote registration is attempted only for accounts that lack a registration
reference. -/
theorem C9_registration_persist_nonfatal (cfg : ClientConfig) (disk : Option AcmeUser)
    (o : AcmeOracle) (k : Nat) (u : AcmeUser)
    (hemail : cfg.email ≠ "")
    (hload : (loadOrCreateUser cfg.configDir disk o k cfg.email).1 = .ok u)
    (hlego : o.legoNewClientOk = true) :
    (u.registration = none → o.registerOk = true → o.saveUserOk = false →
      (NewClient cfg disk o k).1 =
        .ok { user := { u with registration := some { uri := "acme-reg" } },
                configDir := cfg.configDir, staging := cfg.staging,
                webroot := cfg.webroot }) ∧
    (AEvent.remoteRegister ∈ (NewClient cfg disk o k).2 → u.registration = none) := by
  have hnoreg := loadOrCreateUser_no_register cfg.configDir disk o k cfg.email
  rcases hl : loadOrCreateUser cfg.configDir disk o k cfg.email with ⟨r, evs, k'⟩
  rw [hl] at hload hnoreg
  simp only at hload hnoreg
  cases r with
  | error e => cases hload
  | ok u' =>
    have huu : u' = u := by cases hload; rfl
    rw [huu] at hl
    constructor
    · intro hreg hrok hsave
      simp [NewClient, hemail, hl, hlego, hreg, hrok, hsave]
    · intro hmem
      cases hru : u.registration with
      | none => rfl
      | some reg =>
        rw [NewClient, if_neg hemail, hl] at hmem
        simp only [hlego, Bool.true_eq_false, if_false, hru] at hmem
        exact absurd hmem hnoreg

/-- Witness for C9: an on-disk account without a registration reference,
registration succeeding, `saveUser` failing. -/
theorem C9_registration_persist_nonfatal_witness :
    (NewClient { email := "admin@example.com", configDir := configGetCertDir,
                 staging := false, webroot := "" }
      (some { email := "admin@example.com", registration := none, keyId := 7 })
      { loadUserOk := true, userKeyGenOk := true, userDirOk := true,
        userKeyWriteOk := true, legoNewClientOk := true, registerOk := true,
        saveUserOk := false } 0).1 =
    .ok { user := { email := "admin@example.com",
                    registration := some { uri := "acme-reg" }, keyId := 7 },
          configDir := configGetCertDir, staging := false, webroot := "" } :=
  (C9_registration_persist_nonfatal
    { email := "admin@example.com", configDir := configGetCertDir,
      staging := false, webroot := "" }
    (some { email := "admin@example.com", registration := none, keyId := 7 })
    { loadUserOk := true, userKeyGenOk := true, userDirOk := true,
      userKeyWriteOk := true, legoNewClientOk := true, registerOk := true,
      saveUserOk := false } 0
    { email := "admin@example.com", registration := none, keyId := 7 }
    (by decide) rfl rfl).1 rfl rfl rfl

/-! Claim C10. -/

/-- C10: `sanitizeEmail` only ever emits characters from `[a-zA-Z0-9._-]`,
but it is not injective: the distinct addresses `user@host.com` and
`user_host.com` sanitize identically, so their accounts share one on-disk
directory (and hence one `account.key`). -/
theorem C10_sanitize_email :
    (∀ email : String, ∀ c ∈ (sanitizeEmail email).data, isEmailSafeChar c = true) ∧
    sanitizeEmail "user@host.com" = sanitizeEmail "user_host.com" ∧
    "user@host.com" ≠ "user_host.com" ∧
    ∀ configDir : String,
      userDir configDir "user@host.com" = userDir configDir "user_host.com" := by
  have hmap : sanitizeEmail "user@host.com" = sanitizeEmail "user_host.com" := by decide
  refine ⟨?_, hmap, by decide, ?_⟩
  · intro email c hc
    obtain ⟨a, -, rfl⟩ := List.mem_map.mp hc
    by_cases h : ('a' ≤ a ∧ a ≤ 'z') ∨ ('A' ≤ a ∧ a ≤ 'Z') ∨ ('0' ≤ a ∧ a ≤ '9')
        ∨ a = '-' ∨ a = '_' ∨ a = '.'
    · rw [if_pos h]
      simp [isEmailSafeChar, h]
    · rw [if_neg h]
      decide
  · intro configDir
    unfold userDir
    rw [hmap]

/-- Witness for C10 at a concrete character of a concrete address. -/
theorem C10_sanitize_email_witness :
    isEmailSafeChar '_' = true ∧
    userDir configGetCertDir "user@host.com" = userDir configGetCertDir "user_host.com" :=
  ⟨C10_sanitize_email.1 "user@host.com" '_' (by decide),
    C10_sanitize_email.2.2.2 configGetCertDir⟩

/-! Claim C1. -/

/-- The self-signed certificate produced by the fallback in the
`oracleClientFail` run started at entropy counter 0: it certifies the
*second* key pair drawn (key 1), not the persisted key 0. -/
def fallbackCertExample : Certificate :=
  { subjectCN := "example.com", dnsNames := ["example.com"], notBefore := 0,
    notAfter := days90ns, keyId := 1, selfSigned := true }

/-- Counterexample to C1: in a run where ACME client creation fails, the
persisted fallback certificate certifies key pair 1, while the only key ever
written to the store's key path is key pair 0 — `generateSelfSignedCert`
calls `rsa.GenerateKey` afresh (manager.go:509) instead of reusing the
already-generated key, so the fallback certificate is *not* synthesized from
the already-generated key pair. -/
theorem C1_counterexample :
    (install exampleManager oracleClientFail 0 ⟨[], 0⟩).1 = .ok () ∧
    (Event.certWrite exampleManager.getCertPath fallbackCertExample ∈
        ((install exampleManager oracleClientFail 0 ⟨[], 0⟩).2).events ∧
      fallbackCertExample.selfSigned = true ∧ fallbackCertExample.keyId = 1) ∧
    (∀ kid mode, Event.keyWrite exampleManager.getKeyPath kid mode ∈
        ((install exampleManager oracleClientFail 0 ⟨[], 0⟩).2).events → kid = 0) ∧
    (1 : Nat) ≠ 0 := by
  have hrun : install exampleManager oracleClientFail 0 ⟨[], 0⟩ =
      (.ok (), ⟨[.mkdirCertDir exampleManager.certDirPath,
        .keyWrite exampleManager.getKeyPath 0 600, .remoteNewClient,
        .certWrite exampleManager.getCertPath fallbackCertExample,
        .wsConfigure, .wsTest, .wsReload], 2⟩) := rfl
  refine ⟨by rw [hrun], ⟨by rw [hrun]; simp, rfl, rfl⟩, ?_, by decide⟩
  intro kid mode h
  rw [hrun] at h
  simp [Event.keyWrite.injEq] at h
  exact h.1

/-- C1 as amended: whenever the remote acquisition path fails (client
creation, challenge setup, or the obtain call) and the local steps succeed,
`Install` succeeds, persisting through `saveCertificate` a self-signed
certificate whose SANs equal the domain set and whose `NotAfter` is exactly
90 days after `NotBefore` — but the certificate is built from a *freshly
generated* key pair (`cert.keyId ≠ k`), not from the already-generated key
persisted at the store's key path. -/
theorem C1_fallback_uses_fresh_key (m : Manager) (o : Oracle) (now : Int) (k : Nat)
    (hct : m.challengeType = .webroot ∨ m.challengeType = .standalone)
    (hw : m.HasWildcard = false)
    (hfail : o.newClientOk = false ∨ o.setChallengeOk = false ∨ o.obtainOk = false)
    (hm : o.mkdirOk = true) (hkg : o.keyGenOk = true) (hkc : o.keyCreateOk = true)
    (hkm : o.keyChmodOk = true) (hcsr : o.csrOk = true) (hss : o.selfSignOk = true)
    (hcw : o.certWriteOk = true) (hc1 : o.configureOk = true) (hc2 : o.testOk = true)
    (hc3 : o.reloadOk = true) :
    (install m o now ⟨[], k⟩).1 = .ok () ∧
    ∃ cert : Certificate,
      Event.certWrite m.getCertPath cert ∈ ((install m o now ⟨[], k⟩).2).events ∧
      cert.selfSigned = true ∧ cert.dnsNames = m.domains ∧
      cert.notAfter = cert.notBefore + days90ns ∧ cert.keyId ≠ k ∧
      Event.keyWrite m.getKeyPath k 600 ∈ ((install m o now ⟨[], k⟩).2).events := by
  have hguard : ¬(m.HasWildcard = true ∧ m.challengeType ≠ ChallengeType.dns) := by
    simp [hw]
  obtain ⟨δ, hfb⟩ := obtainCertificate_fallback m o
    { commonName := m.primaryDomain, dnsNames := m.domains, keyId := k } now
    ⟨[.mkdirCertDir m.certDirPath, .keyWrite m.getKeyPath k 600], k + 1⟩ hct hw hss hfail
  dsimp only at hfb
  unfold install
  rw [if_neg hguard]
  simp only [createCertDir, hm, if_true, St.addEvent, generatePrivateKey, hkg, hkc, hkm,
    createCSR, hcsr, List.nil_append, List.cons_append]
  rw [hfb]
  split
  · rename_i e3 s3 heq
    simp at heq
  · rename_i cb s3 heq
    simp only [Prod.mk.injEq, Except.ok.injEq] at heq
    obtain ⟨rfl, rfl⟩ := heq
    obtain ⟨hs1, hs2, hs3⟩ := saveCertificate_ok m o
      { subjectCN := m.primaryDomain, dnsNames := m.domains, notBefore := now,
        notAfter := now + days90ns, keyId := k + 1, selfSigned := true }
      ⟨[Event.mkdirCertDir m.certDirPath, Event.keyWrite m.getKeyPath k 600] ++ δ,
        k + 1 + 1⟩ hcw
    split
    · rename_i e5 s5 heq5
      rw [heq5] at hs1
      simp at hs1
    · rename_i u5 s5 heq5
      rw [heq5] at hs2 hs3
      obtain ⟨hc1', hc2'⟩ := configureWebServer_ok m o s5 hc1 hc2 hc3
      refine ⟨hc1', { subjectCN := m.primaryDomain, dnsNames := m.domains,
                      notBefore := now, notAfter := now + days90ns, keyId := k + 1,
                      selfSigned := true },
        hc2' _ hs2, rfl, rfl, rfl, by simp, hc2' _ (hs3 _ (by simp))⟩

/-- Witness for C1's amended theorem: the failing-client run for
`example.com`. -/
theorem C1_fallback_uses_fresh_key_witness :
    (install exampleManager oracleClientFail 0 ⟨[], 0⟩).1 = .ok () ∧
    ∃ cert : Certificate,
      Event.certWrite exampleManager.getCertPath cert ∈
        ((install exampleManager oracleClientFail 0 ⟨[], 0⟩).2).events ∧
      cert.selfSigned = true ∧ cert.dnsNames = exampleManager.domains ∧
      cert.notAfter = cert.notBefore + days90ns ∧ cert.keyId ≠ 0 ∧
      Event.keyWrite exampleManager.getKeyPath 0 600 ∈
        ((install exampleManager oracleClientFail 0 ⟨[], 0⟩).2).events :=
  C1_fallback_uses_fresh_key exampleManager oracleClientFail 0 0 (.inl rfl) rfl
    (.inl rfl) rfl rfl rfl rfl rfl rfl rfl rfl rfl rfl

/-! Claim C6. -/

/-- C6: in any run of `Install` whose trace contains a remote ACME event,
the trace begins with exactly the certificate-directory creation followed by
the key write with final permission 0600 using the first key drawn, and every
remote event lies strictly after that key write — so a later remote failure
always leaves the key file on disk. -/
theorem C6_key_before_remote (m : Manager) (o : Oracle) (now : Int) (k : Nat)
    (e : Event) (he : e ∈ ((install m o now ⟨[], k⟩).2).events)
    (her : isRemoteEvent e = true) :
    ∃ rest, ((install m o now ⟨[], k⟩).2).events =
      Event.mkdirCertDir m.certDirPath :: Event.keyWrite m.getKeyPath k 600 :: rest ∧
      ∀ e' ∈ ((install m o now ⟨[], k⟩).2).events, isRemoteEvent e' = true →
        e' ∈ rest := by
  obtain ⟨rest, hrest⟩ := install_remote_prefix m o now ⟨[], k⟩ e he her (by simp)
  have hrest' : ((install m o now ⟨[], k⟩).2).events =
      Event.mkdirCertDir m.certDirPath :: Event.keyWrite m.getKeyPath k 600 :: rest := by
    simpa using hrest
  refine ⟨rest, hrest', ?_⟩
  intro e' he' hr'
  rw [hrest'] at he'
  rcases List.mem_cons.mp he' with rfl | he'
  · simp [isRemoteEvent] at hr'
  · rcases List.mem_cons.mp he' with rfl | he'
    · simp [isRemoteEvent] at hr'
    · exact he'

/-- Witness for C6: the all-success run for `example.com` contains
`remoteNewClient`. -/
theorem C6_key_before_remote_witness :
    ∃ rest, ((install exampleManager oracleAllOk 0 ⟨[], 0⟩).2).events =
      Event.mkdirCertDir exampleManager.certDirPath ::
        Event.keyWrite exampleManager.getKeyPath 0 600 :: rest ∧
      ∀ e' ∈ ((install exampleManager oracleAllOk 0 ⟨[], 0⟩).2).events,
        isRemoteEvent e' = true → e' ∈ rest :=
  C6_key_before_remote exampleManager oracleAllOk 0 0 .remoteNewClient (by decide)
    (by decide)

/-! Claim C7. -/

/-- C7: with a bound configurator, the configurator events of any `Install`
run form a prefix of configure–test–reload (so each is invoked at most once
and strictly in that order); reload appears only when configure and test both
succeeded; and a configure or test failure that occurred is propagated as the
result of `Install`. -/
theorem C7_configurator_order (m : Manager) (o : Oracle) (now : Int) (k : Nat)
    (hconf : m.configurator = true) :
    (((install m o now ⟨[], k⟩).2).events.filter isWsEvent = [] ∨
     ((install m o now ⟨[], k⟩).2).events.filter isWsEvent = [.wsConfigure] ∨
     ((install m o now ⟨[], k⟩).2).events.filter isWsEvent =
       [.wsConfigure, .wsTest] ∨
     ((install m o now ⟨[], k⟩).2).events.filter isWsEvent =
       [.wsConfigure, .wsTest, .wsReload]) ∧
    (Event.wsReload ∈ ((install m o now ⟨[], k⟩).2).events →
      o.configureOk = true ∧ o.testOk = true) ∧
    (Event.wsConfigure ∈ ((install m o now ⟨[], k⟩).2).events →
      o.configureOk = false →
      (install m o now ⟨[], k⟩).1 = .error .configureFailed) ∧
    (Event.wsTest ∈ ((install m o now ⟨[], k⟩).2).events → o.testOk = false →
      (install m o now ⟨[], k⟩).1 = .error .testFailed) := by
  rcases install_split m o now ⟨[], k⟩ with
    ⟨s', hinst, δ, hδ, hfree⟩ | ⟨er, herr, δ, hδ, hfree⟩
  · have hδ' : s'.events = δ := by simpa using hδ
    have hfilter : s'.events.filter isWsEvent = [] := by
      rw [List.filter_eq_nil_iff]
      intro a ha
      simp [hfree a (hδ' ▸ ha)]
    have hsmem : ∀ ev : Event, isWsEvent ev = true → ev ∈ s'.events → False := by
      intro ev hev hmem
      rw [hfree ev (hδ' ▸ hmem)] at hev
      cases hev
    obtain ⟨hspec1, hspec2, hspec3, hspec4⟩ := configureWebServer_spec m o s' hconf
    rw [hinst]
    by_cases h1 : o.configureOk = false
    · rw [hspec1 h1]
      refine ⟨.inr (.inl ?_), ?_, fun _ _ => rfl, ?_⟩
      · simp [List.filter_append, hfilter, isWsEvent]
      · intro hmem
        rcases List.mem_append.mp hmem with h | h
        · exact (hsmem Event.wsReload rfl h).elim
        · simp at h
      · intro hmem hto
        rcases List.mem_append.mp hmem with h | h
        · exact (hsmem Event.wsTest rfl h).elim
        · simp at h
    · have h1' : o.configureOk = true := by simpa using h1
      by_cases h2 : o.testOk = false
      · rw [hspec2 h1' h2]
        refine ⟨.inr (.inr (.inl ?_)), ?_, ?_, fun _ _ => rfl⟩
        · simp [List.filter_append, hfilter, isWsEvent]
        · intro hmem
          rcases List.mem_append.mp hmem with h | h
          · exact (hsmem Event.wsReload rfl h).elim
          · simp at h
        · intro _ hc
          rw [hc] at h1'
          cases h1'
      · have h2' : o.testOk = true := by simpa using h2
        by_cases h3 : o.reloadOk = false
        · rw [hspec3 h1' h2' h3]
          refine ⟨.inr (.inr (.inr ?_)), fun _ => ⟨h1', h2'⟩, ?_, ?_⟩
          · simp [List.filter_append, hfilter, isWsEvent]
          · intro _ hc
            rw [hc] at h1'
            cases h1'
          · intro _ hc
            rw [hc] at h2'
            cases h2'
        · have h3' : o.reloadOk = true := by simpa using h3
          rw [hspec4 h1' h2' h3']
          refine ⟨.inr (.inr (.inr ?_)), fun _ => ⟨h1', h2'⟩, ?_, ?_⟩
          · simp [List.filter_append, hfilter, isWsEvent]
          · intro _ hc
            rw [hc] at h1'
            cases h1'
          · intro _ hc
            rw [hc] at h2'
            cases h2'
  · have hδ' : ((install m o now ⟨[], k⟩).2).events = δ := by simpa using hδ
    have hnomem : ∀ ev : Event, isWsEvent ev = true →
        ev ∉ ((install m o now ⟨[], k⟩).2).events := by
      intro ev hev hmem
      rw [hδ'] at hmem
      rw [hfree ev hmem] at hev
      cases hev
    refine ⟨.inl ?_, ?_, ?_, ?_⟩
    · rw [hδ', List.filter_eq_nil_iff]
      intro a ha
      simp [hfree a ha]
    · intro hmem
      exact absurd hmem (hnomem _ rfl)
    · intro hmem _
      exact absurd hmem (hnomem _ rfl)
    · intro hmem _
      exact absurd hmem (hnomem _ rfl)

/-- Witness for C7: in the all-success run reload was reached, so configure
and test both succeeded. -/
theorem C7_configurator_order_witness :
    oracleAllOk.configureOk = true ∧ oracleAllOk.testOk = true :=
  (C7_configurator_order exampleManager oracleAllOk 0 0 rfl).2.1 (by decide)

end AutoCert
